import Mathlib

/-!
Verification development for the code-execution backend
(`backend/app/services/compiler_service.py`,
`backend/app/services/performance_service.py`,
`backend/app/api/code.py`).

The Python sources are shallowly embedded as executable Lean definitions.
Interaction with the operating system (temporary-file naming, subprocess
results, wall-clock and psutil readings) is abstracted into explicit
environment records that the embedded functions consume; everything the
Python code itself computes (string handling, dictionary lookups, control
flow, error conversion) is modelled directly from the source.
-/

/-! ## Python string primitives used by the sources

The sources use `in` (substring test), `str.lower`, `str.strip`,
`str.replace`, slicing and `', '.join`.  These are modelled directly on
the character lists underlying `String`, so that every definition reduces
in the kernel.
-/

/-- `chars_lead pre l` is true when the character list `pre` occurs at the
head of `l` (Python: `l.startswith(pre)` on strings). -/
def chars_lead : List Char → List Char → Bool
  | [], _ => true
  | _ :: _, [] => false
  | p :: ps, c :: cs => p == c && chars_lead ps cs

/-- `chars_occur pat l` is true when `pat` occurs contiguously anywhere in
`l` (Python: `pat in l`). -/
def chars_occur (pat : List Char) : List Char → Bool
  | [] => chars_lead pat []
  | c :: cs => chars_lead pat (c :: cs) || chars_occur pat cs

/-- Python's substring test `pat in s`. -/
def py_in (pat s : String) : Bool := chars_occur pat.data s.data

/-- Python's `str.lower()` (the sources only apply it to ASCII
identifiers and source text, where `Char.toLower` agrees with Python). -/
def py_lower (s : String) : String := ⟨s.data.map Char.toLower⟩

/-- Python's `str.strip()`: remove leading and trailing whitespace. -/
def py_strip (s : String) : String :=
  ⟨((s.data.dropWhile Char.isWhitespace).reverse.dropWhile Char.isWhitespace).reverse⟩

/-- Python's slice `s[:n]`. -/
def py_take (s : String) (n : Nat) : String := ⟨s.data.take n⟩

/-- If `pre` leads `l`, return the remainder of `l` after `pre`. -/
def drop_lead : List Char → List Char → Option (List Char)
  | [], cs => some cs
  | _ :: _, [] => none
  | p :: ps, c :: cs => if p == c then drop_lead ps cs else none

/-- Python's `str.replace(pat, rep)` on character lists: replace every
non-overlapping occurrence of `pat`, scanning left to right.  The fuel
argument only bounds the number of scan steps (every step consumes at
least one character, so `l.length` is always enough); it keeps the
recursion structural so that the function reduces in the kernel. -/
def replace_chars_fuel (pat rep : List Char) : Nat → List Char → List Char
  | _, [] => []
  | 0, l => l
  | fuel + 1, c :: cs =>
    if pat = [] then c :: replace_chars_fuel pat rep fuel cs
    else
      match drop_lead pat (c :: cs) with
      | some rest => rep ++ replace_chars_fuel pat rep fuel rest
      | none => c :: replace_chars_fuel pat rep fuel cs

def replace_chars (pat rep l : List Char) : List Char :=
  replace_chars_fuel pat rep l.length l

/-- Python's `str.replace`. -/
def py_replace (s pat rep : String) : String := ⟨replace_chars pat.data rep.data s.data⟩

/-- Python's `', '.join(xs)`. -/
def join_comma : List String → String
  | [] => ""
  | [s] => s
  | s :: rest => s ++ ", " ++ join_comma rest

theorem chars_lead_append (l m : List Char) : chars_lead l (l ++ m) = true := by
  induction l with
  | nil => rfl
  | cons c cs ih => simp [chars_lead, ih]

/-! ## Rate limiter (`performance_service.py`, class `RateLimiter`)

Timestamps (`time.time()` values) are modelled as integers.  The
`defaultdict(deque)` store is modelled as a total function from keys to
timestamp lists (oldest first), which matches `defaultdict` semantics:
reading an absent key yields an empty deque.
-/

/-- `self.default_limits` of `RateLimiter.__init__`. -/
def default_limits : List (String × Nat) :=
  [("requests_per_minute", 60),
   ("requests_per_hour", 1000),
   ("code_executions_per_minute", 10),
   ("ai_requests_per_minute", 20)]

/-- `self.user_limits["admin"]`. -/
def admin_limits : List (String × Nat) :=
  [("requests_per_minute", 120),
   ("requests_per_hour", 5000),
   ("code_executions_per_minute", 50),
   ("ai_requests_per_minute", 100)]

/-- `self.user_limits["demo"]`. -/
def demo_limits : List (String × Nat) :=
  [("requests_per_minute", 30),
   ("requests_per_hour", 500),
   ("code_executions_per_minute", 5),
   ("ai_requests_per_minute", 10)]

/-- `self.user_limits`. -/
def user_limits : List (String × List (String × Nat)) :=
  [("admin", admin_limits), ("demo", demo_limits)]

/-- `limits = self.user_limits.get(user_type, self.default_limits);
limit = limits.get(limit_type, self.default_limits.get(limit_type, 60))`. -/
def lookup_limit (user_type limit_type : String) : Nat :=
  let limits := (user_limits.lookup user_type).getD default_limits
  (limits.lookup limit_type).getD ((default_limits.lookup limit_type).getD 60)

/-- Window selection of `is_allowed` / `get_remaining_requests`:
`60` if `"minute" in limit_type`, `3600` if `"hour" in limit_type`,
else `60`. -/
def window_of (limit_type : String) : Int :=
  if py_in "minute" limit_type then 60
  else if py_in "hour" limit_type then 3600
  else 60

/-- The in-memory store `self.requests`. -/
structure RateLimiter where
  requests : String → List Int

/-- Pointwise update of the store at one key. -/
def upd_req (f : String → List Int) (k : String) (v : List Int) : String → List Int :=
  fun x => if x = k then v else f x

/-- The eviction loop
`while request_times and request_times[0] < now - window: request_times.popleft()`. -/
def evict_old (window now : Int) : List Int → List Int
  | [] => []
  | t :: ts => if t < now - window then evict_old window now ts else t :: ts

/-- `RateLimiter.is_allowed`: evict expired timestamps, deny (without
recording) if the count is at the ceiling, otherwise record `now` and
admit.  Returns the verdict together with the updated store (the Python
method mutates the deque in place). -/
def is_allowed (rl : RateLimiter) (now : Int) (key limit_type user_type : String) :
    Bool × RateLimiter :=
  let limit := lookup_limit user_type limit_type
  let window := window_of limit_type
  let rkey := key ++ ":" ++ limit_type
  let ts := evict_old window now (rl.requests rkey)
  if limit ≤ ts.length then
    (false, ⟨upd_req rl.requests rkey ts⟩)
  else
    (true, ⟨upd_req rl.requests rkey (ts ++ [now])⟩)

/-- `RateLimiter.get_remaining_requests`: same eviction, returns
`max(0, limit - len(request_times))`.  The eviction happens on the stored
deque itself, so the (possibly changed) store is returned as well. -/
def get_remaining_requests (rl : RateLimiter) (now : Int) (key limit_type user_type : String) :
    Int × RateLimiter :=
  let limit := lookup_limit user_type limit_type
  let window := window_of limit_type
  let rkey := key ++ ":" ++ limit_type
  let ts := evict_old window now (rl.requests rkey)
  (max 0 ((limit : Int) - ts.length), ⟨upd_req rl.requests rkey ts⟩)

/-- Iterate `is_allowed` over a list of call times, collecting the
verdicts. -/
def run_calls (rl : RateLimiter) (times : List Int) (key limit_type user_type : String) :
    List Bool × RateLimiter :=
  match times with
  | [] => ([], rl)
  | t :: rest =>
    let step := is_allowed rl t key limit_type user_type
    let tail := run_calls step.2 rest key limit_type user_type
    (step.1 :: tail.1, tail.2)

theorem upd_req_same (f : String → List Int) (k : String) (v : List Int) :
    upd_req f k v k = v := by
  simp [upd_req]

@[simp] theorem RateLimiter_requests_mk (f : String → List Int) :
    (⟨f⟩ : RateLimiter).requests = f := rfl

theorem upd_req_upd_req (f : String → List Int) (k : String) (v w : List Int) :
    upd_req (upd_req f k v) k w = upd_req f k w := by
  funext x
  by_cases h : x = k <;> simp [upd_req, h]

theorem lookup_values {α β : Type} [BEq α] {l : List (α × β)} {k : α} {b : β} :
    l.lookup k = some b → ∃ p ∈ l, p.2 = b := by
  induction l with
  | nil => intro h; simp [List.lookup] at h
  | cons a tl ih =>
    intro h
    simp only [List.lookup] at h
    split at h
    · exact ⟨a, by simp, by simpa using h⟩
    · obtain ⟨p, hp, hpb⟩ := ih h
      exact ⟨p, by simp [hp], hpb⟩

theorem lookup_getD_pos (d : List (String × Nat)) (k : String) (v : Nat)
    (hd : ∀ p ∈ d, 1 ≤ p.2) (hv : 1 ≤ v) : 1 ≤ (d.lookup k).getD v := by
  cases h : d.lookup k with
  | none => simpa using hv
  | some b =>
    obtain ⟨p, hp, hpb⟩ := lookup_values h
    simpa [hpb] using hd p hp

/-- Every ceiling the limiter can look up is positive. -/
theorem lookup_limit_pos (user_type limit_type : String) : 1 ≤ lookup_limit user_type limit_type := by
  unfold lookup_limit
  have hinner : 1 ≤ (default_limits.lookup limit_type).getD 60 :=
    lookup_getD_pos _ _ _ (by decide) (by decide)
  cases h : user_limits.lookup user_type with
  | none =>
    simpa [h] using lookup_getD_pos default_limits limit_type _ (by decide) hinner
  | some tbl =>
    obtain ⟨p, hp, hpb⟩ := lookup_values h
    have : tbl = admin_limits ∨ tbl = demo_limits := by
      simp [user_limits] at hp
      rcases hp with hp | hp <;> [left; right] <;> rw [← hpb, hp]
    rcases this with htbl | htbl <;>
      simpa [h, htbl] using lookup_getD_pos _ limit_type _ (by decide) hinner

theorem evict_old_eq_self {W now : Int} {l : List Int}
    (h : ∀ t ∈ l, now - W ≤ t) : evict_old W now l = l := by
  induction l with
  | nil => rfl
  | cons t ts ih =>
    have ht := h t (by simp)
    have hcond : ¬ (t < now - W) := by omega
    simp [evict_old, hcond]

theorem evict_old_eq_nil {W now : Int} {l : List Int}
    (h : ∀ t ∈ l, t < now - W) : evict_old W now l = [] := by
  induction l with
  | nil => rfl
  | cons t ts ih =>
    have ht := h t (by simp)
    simp only [evict_old]
    rw [if_pos ht]
    exact ih fun s hs => h s (by simp [hs])

theorem evict_old_sorted_filter {W now : Int} {l : List Int}
    (h : l.Pairwise (· ≤ ·)) :
    evict_old W now l = l.filter (fun t => decide (now - W ≤ t)) := by
  induction l with
  | nil => rfl
  | cons t ts ih =>
    rcases List.pairwise_cons.mp h with ⟨hhead, htail⟩
    by_cases hlt : t < now - W
    · simp only [evict_old, if_pos hlt, List.filter_cons,
        decide_eq_true_eq]
      rw [if_neg (by omega)]
      exact ih htail
    · simp only [evict_old, if_neg hlt, List.filter_cons, decide_eq_true_eq]
      rw [if_pos (by omega)]
      congr 1
      have : ∀ s ∈ ts, decide (now - W ≤ s) = true := by
        intro s hs
        have := hhead s hs
        simp only [decide_eq_true_eq]
        omega
      exact (List.filter_eq_self.mpr this).symm

theorem is_allowed_admit (rl : RateLimiter) (now : Int) (key lt ut : String)
    (hcount : (evict_old (window_of lt) now (rl.requests (key ++ ":" ++ lt))).length
        < lookup_limit ut lt) :
    is_allowed rl now key lt ut
      = (true, ⟨upd_req rl.requests (key ++ ":" ++ lt)
          (evict_old (window_of lt) now (rl.requests (key ++ ":" ++ lt)) ++ [now])⟩) := by
  have hneg : ¬ (lookup_limit ut lt
      ≤ (evict_old (window_of lt) now (rl.requests (key ++ ":" ++ lt))).length) := by omega
  simp only [is_allowed]
  rw [if_neg hneg]

theorem is_allowed_deny (rl : RateLimiter) (now : Int) (key lt ut : String)
    (hcount : lookup_limit ut lt
        ≤ (evict_old (window_of lt) now (rl.requests (key ++ ":" ++ lt))).length) :
    is_allowed rl now key lt ut
      = (false, ⟨upd_req rl.requests (key ++ ":" ++ lt)
          (evict_old (window_of lt) now (rl.requests (key ++ ":" ++ lt)))⟩) := by
  simp only [is_allowed]
  rw [if_pos hcount]

/-- All calls of a batch that stays inside one window and does not reach the
ceiling are admitted, and the record accumulates their timestamps in order. -/
theorem run_calls_admits (key lt ut : String) (lo hi : Int)
    (hwin : hi - window_of lt ≤ lo) :
    ∀ (times acc : List Int),
      acc.length + times.length ≤ lookup_limit ut lt →
      (∀ t ∈ acc, lo ≤ t ∧ t ≤ hi) →
      (∀ t ∈ times, lo ≤ t ∧ t ≤ hi) →
      run_calls ⟨upd_req (fun _ => []) (key ++ ":" ++ lt) acc⟩ times key lt ut
        = (List.replicate times.length true,
           ⟨upd_req (fun _ => []) (key ++ ":" ++ lt) (acc ++ times)⟩) := by
  intro times
  induction times with
  | nil =>
    intro acc _ _ _
    simp [run_calls]
  | cons t rest ih =>
    intro acc hlen hacc htimes
    have hm := htimes t (by simp)
    have hev : evict_old (window_of lt) t
        ((upd_req (fun _ => []) (key ++ ":" ++ lt) acc) (key ++ ":" ++ lt)) = acc := by
      rw [upd_req_same]
      exact evict_old_eq_self (fun s hs => by have := (hacc s hs).1; omega)
    have hstep := is_allowed_admit ⟨upd_req (fun _ => []) (key ++ ":" ++ lt) acc⟩ t key lt ut
      (by simp only [RateLimiter_requests_mk, hev]
          simp only [List.length_cons] at hlen
          omega)
    simp only [RateLimiter_requests_mk, hev] at hstep
    have htail := ih (acc ++ [t])
      (by simp at hlen ⊢; omega)
      (by intro s hs
          rcases List.mem_append.mp hs with hs | hs
          · exact hacc s hs
          · simp at hs; subst hs; exact hm)
      (fun s hs => htimes s (by simp [hs]))
    simp only [run_calls, hstep, upd_req_upd_req, htail, List.replicate_succ,
      List.length_cons, List.append_assoc, List.singleton_append]

/-- C2.  Starting from an empty limiter, a batch of exactly `ceiling` calls
whose timestamps all lie in an interval `[lo, hi]` no wider than the window
is fully admitted; a further call still inside the window is denied and
leaves the store unchanged (in particular it records no timestamp); and once
all recorded timestamps are strictly older than the window, a new call is
admitted again. -/
theorem rate_limiter_ceiling_denies_then_window_resets
    (key lt ut : String) (times : List Int) (lo hi t_deny t_new : Int)
    (hlen : times.length = lookup_limit ut lt)
    (hmem : ∀ t ∈ times, lo ≤ t ∧ t ≤ hi)
    (hwin : hi - window_of lt ≤ lo)
    (hdeny : t_deny - window_of lt ≤ lo)
    (hnew : hi < t_new - window_of lt) :
    (run_calls ⟨fun _ => []⟩ times key lt ut).1 = List.replicate (lookup_limit ut lt) true
    ∧ is_allowed (run_calls ⟨fun _ => []⟩ times key lt ut).2 t_deny key lt ut
        = (false, (run_calls ⟨fun _ => []⟩ times key lt ut).2)
    ∧ (is_allowed (run_calls ⟨fun _ => []⟩ times key lt ut).2 t_new key lt ut).1 = true := by
  have hbase : (⟨fun _ => []⟩ : RateLimiter)
      = ⟨upd_req (fun _ => []) (key ++ ":" ++ lt) []⟩ := by
    congr 1
    funext x
    simp [upd_req]
  have hrun := run_calls_admits key lt ut lo hi hwin times [] (by simp [hlen]) (by simp) hmem
  rw [hbase, hrun]
  simp only [List.nil_append]
  have hreq : (⟨upd_req (fun _ => []) (key ++ ":" ++ lt) times⟩ : RateLimiter).requests
      (key ++ ":" ++ lt) = times := by
    simp [upd_req]
  refine ⟨by rw [hlen], ?_, ?_⟩
  · have hev : evict_old (window_of lt) t_deny times = times :=
      evict_old_eq_self (fun s hs => by have := (hmem s hs).1; omega)
    have hd := is_allowed_deny ⟨upd_req (fun _ => []) (key ++ ":" ++ lt) times⟩ t_deny key lt ut
      (by rw [hreq, hev, ← hlen])
    rw [hd]
    simp only [hreq, RateLimiter_requests_mk, upd_req_same, hev, upd_req_upd_req]
  · have hev : evict_old (window_of lt) t_new times = [] :=
      evict_old_eq_nil (fun s hs => by have := (hmem s hs).2; omega)
    have ha := is_allowed_admit ⟨upd_req (fun _ => []) (key ++ ":" ++ lt) times⟩ t_new key lt ut
      (by rw [hreq, hev]; simpa using lookup_limit_pos ut lt)
    rw [ha]

/-- Witness for C2 at the concrete scenario: key `u1`, limit type
`code_executions_per_minute` (ceiling 10 for the default tier, window 60s),
ten admitted calls at time 0, an 11th call at time 0 denied without a record,
and a call at time 100 admitted again. -/
theorem rate_limiter_c2_witness :
    (List.replicate 10 (0 : Int)).length = lookup_limit "default" "code_executions_per_minute"
    ∧ ((0 : Int) - window_of "code_executions_per_minute" ≤ 0)
    ∧ ((0 : Int) < 100 - window_of "code_executions_per_minute")
    ∧ ((run_calls ⟨fun _ => []⟩ (List.replicate 10 (0 : Int)) "u1" "code_executions_per_minute" "default").1
        = List.replicate (lookup_limit "default" "code_executions_per_minute") true
      ∧ is_allowed (run_calls ⟨fun _ => []⟩ (List.replicate 10 (0 : Int)) "u1" "code_executions_per_minute" "default").2
          0 "u1" "code_executions_per_minute" "default"
        = (false, (run_calls ⟨fun _ => []⟩ (List.replicate 10 (0 : Int)) "u1" "code_executions_per_minute" "default").2)
      ∧ (is_allowed (run_calls ⟨fun _ => []⟩ (List.replicate 10 (0 : Int)) "u1" "code_executions_per_minute" "default").2
          100 "u1" "code_executions_per_minute" "default").1 = true) :=
  ⟨by decide, by decide, by decide,
   rate_limiter_ceiling_denies_then_window_resets "u1" "code_executions_per_minute" "default"
     (List.replicate 10 0) 0 0 0 100 (by decide) (by decide) (by decide) (by decide) (by decide)⟩

/-- C8 (amended).  `get_remaining_requests` returns
`max(0, ceiling - count)` where `count` is the number of recorded
timestamps still inside the window; it appends nothing, and its only
state effect is the in-place eviction of the expired timestamps of the
queried key (other keys are untouched). -/
theorem get_remaining_returns_quota_and_only_evicts
    (rl : RateLimiter) (now : Int) (key lt ut : String)
    (hsort : (rl.requests (key ++ ":" ++ lt)).Pairwise (· ≤ ·)) :
    (get_remaining_requests rl now key lt ut).1
      = max 0 ((lookup_limit ut lt : Int)
          - ((rl.requests (key ++ ":" ++ lt)).filter
              (fun t => decide (now - window_of lt ≤ t))).length)
    ∧ (get_remaining_requests rl now key lt ut).2.requests (key ++ ":" ++ lt)
      = (rl.requests (key ++ ":" ++ lt)).filter (fun t => decide (now - window_of lt ≤ t))
    ∧ (∀ k, k ≠ key ++ ":" ++ lt →
        (get_remaining_requests rl now key lt ut).2.requests k = rl.requests k) := by
  have hev := @evict_old_sorted_filter (window_of lt) now (rl.requests (key ++ ":" ++ lt)) hsort
  refine ⟨?_, ?_, ?_⟩
  · simp only [get_remaining_requests, hev]
  · simp only [get_remaining_requests, hev, upd_req_same]
  · intro k hk
    simp only [get_remaining_requests, upd_req]
    rw [if_neg hk]

/-- Witness for C8's amended theorem: a sorted record `[0, 30, 100]` for
`u1:requests_per_minute` at time 90 (window 60, ceiling 60) yields quota
`58` and evicts exactly the expired timestamp `0`. -/
theorem get_remaining_c8_witness :
    ((⟨upd_req (fun _ => []) "u1:requests_per_minute" [0, 30, 100]⟩ : RateLimiter).requests
        "u1:requests_per_minute").Pairwise (· ≤ ·)
    ∧ ((get_remaining_requests ⟨upd_req (fun _ => []) "u1:requests_per_minute" [0, 30, 100]⟩
          90 "u1" "requests_per_minute" "default").1
        = max 0 ((lookup_limit "default" "requests_per_minute" : Int)
            - (((⟨upd_req (fun _ => []) "u1:requests_per_minute" [0, 30, 100]⟩ : RateLimiter).requests
                "u1:requests_per_minute").filter
                  (fun t => decide (90 - window_of "requests_per_minute" ≤ t))).length)
      ∧ (get_remaining_requests ⟨upd_req (fun _ => []) "u1:requests_per_minute" [0, 30, 100]⟩
          90 "u1" "requests_per_minute" "default").2.requests "u1:requests_per_minute"
        = ((⟨upd_req (fun _ => []) "u1:requests_per_minute" [0, 30, 100]⟩ : RateLimiter).requests
            "u1:requests_per_minute").filter
              (fun t => decide (90 - window_of "requests_per_minute" ≤ t))
      ∧ (∀ k, k ≠ "u1" ++ ":" ++ "requests_per_minute" →
          (get_remaining_requests ⟨upd_req (fun _ => []) "u1:requests_per_minute" [0, 30, 100]⟩
            90 "u1" "requests_per_minute" "default").2.requests k
          = (⟨upd_req (fun _ => []) "u1:requests_per_minute" [0, 30, 100]⟩ : RateLimiter).requests k)) :=
  ⟨by decide,
   get_remaining_returns_quota_and_only_evicts
     ⟨upd_req (fun _ => []) "u1:requests_per_minute" [0, 30, 100]⟩
     90 "u1" "requests_per_minute" "default" (by decide)⟩

/-- C8 counterexample: with an expired timestamp on record, the call DOES
mutate the limiter's state (the expired entry is popped from the stored
deque), so "does not mutate the rate limiter's state" fails. -/
theorem get_remaining_mutates_counterexample :
    (get_remaining_requests ⟨upd_req (fun _ => []) "u1:requests_per_minute" [0]⟩
        61 "u1" "requests_per_minute" "default").2
      ≠ ⟨upd_req (fun _ => []) "u1:requests_per_minute" [0]⟩ := by
  intro h
  have h2 := congrArg (fun s => RateLimiter.requests s "u1:requests_per_minute") h
  simp only [] at h2
  have hL : (get_remaining_requests ⟨upd_req (fun _ => []) "u1:requests_per_minute" [0]⟩
      61 "u1" "requests_per_minute" "default").2.requests "u1:requests_per_minute"
      = ([] : List Int) := by decide
  rw [hL, upd_req_same] at h2
  exact absurd h2 (by decide)

/-! ## Code executor (`compiler_service.py`, class `CodeExecutor`)

The operating system is abstracted into a `SysEnv` record: the name of the
temporary directory, whether the temp-dir/temp-file setup raises, what a
(hypothetical) `Popen`/`communicate` interaction would return, and the
measured wall-clock delta.  Everything else is translated from the Python
source.

One fact of Python semantics is modelled explicitly because the control
flow of `_execute_with_limits` hinges on it: the source calls
`subprocess.Popen(command, stdin=…, stdout=…, stderr=…, cwd=…, text=True,
timeout=self.max_execution_time, shell=False)`, but `Popen.__init__` has
no `timeout` parameter (the `timeout` keyword belongs to
`communicate`/`run`/`wait`), so every such call raises
`TypeError: … got an unexpected keyword argument 'timeout'` before any
process is created; the `except Exception` handler then converts it into
an "Execution failed: …" result.
-/

/-- One entry of `self.supported_languages`. -/
structure LangConfig where
  extension : String
  command : List String
deriving DecidableEq

/-- `self.supported_languages` of `CodeExecutor.__init__` (insertion order). -/
def supported_languages : List (String × LangConfig) :=
  [("python", ⟨".py", ["python"]⟩),
   ("javascript", ⟨".js", ["node"]⟩),
   ("typescript", ⟨".ts", ["npx", "ts-node"]⟩),
   ("java", ⟨".java", ["javac", "{file}", "&&", "java"]⟩),
   ("cpp", ⟨".cpp", ["g++", "-o", "{output}", "{file}", "&&", "{output}"]⟩),
   ("c", ⟨".c", ["gcc", "-o", "{output}", "{file}", "&&", "{output}"]⟩),
   ("go", ⟨".go", ["go", "run"]⟩),
   ("rust", ⟨".rs", ["rustc", "{file}", "&&", "{output}"]⟩),
   ("php", ⟨".php", ["php"]⟩),
   ("ruby", ⟨".rb", ["ruby"]⟩),
   ("shell", ⟨".sh", ["bash"]⟩),
   ("powershell", ⟨".ps1", ["powershell", "-File"]⟩)]

/-- `self.max_execution_time` (seconds). -/
def max_execution_time : Nat := 10

/-- `self.max_output_size` (1MB). -/
def max_output_size : Nat := 1024 * 1024

/-- `os.name == 'nt'`: the service runs on a POSIX host. -/
def os_name_nt : Bool := false

/-- `os.path.basename`-like: final path component. -/
def path_basename (p : String) : String :=
  ⟨(p.data.reverse.takeWhile (fun c => c != '/')).reverse⟩

/-- `pathlib.Path(p).stem` for the file names this service produces
(`code.py`, `code.java`, …): final component with its last extension
removed. -/
def path_stem (p : String) : String :=
  let name := path_basename p
  match name.data.reverse.dropWhile (fun c => c != '.') with
  | '.' :: rest => ⟨rest.reverse⟩
  | _ => name

/-- `CodeExecutor._prepare_command`. -/
def prepare_command (language file_path temp_dir : String) : List String :=
  let lang_config := (supported_languages.lookup language).getD ⟨"", []⟩
  let command := lang_config.command
  if language = "java" then
    ["java", "-cp", temp_dir, path_stem file_path]
  else if language = "cpp" ∨ language = "c" ∨ language = "rust" then
    let output_file :=
      if os_name_nt then temp_dir ++ "/" ++ "output.exe" else temp_dir ++ "/" ++ "output"
    command.map (fun cmd => py_replace (py_replace cmd "{file}" file_path) "{output}" output_file)
  else
    command ++ [file_path]

/-- Outcome of one `subprocess` interaction, as decided by the host OS. -/
inductive CommOutcome where
  | completes (stdout stderr : String) (returncode : Int)
  | timeoutExpired
  | raises (msg : String)
deriving DecidableEq

/-- The parameters accepted by `subprocess.Popen.__init__` (Python 3
standard-library signature). -/
def popen_parameters : List String :=
  ["args", "bufsize", "executable", "stdin", "stdout", "stderr", "preexec_fn",
   "close_fds", "shell", "cwd", "env", "universal_newlines", "startupinfo",
   "creationflags", "restore_signals", "start_new_session", "pass_fds",
   "group", "extra_groups", "user", "umask", "encoding", "errors", "text",
   "pipesize", "process_group"]

/-- The keyword arguments `_execute_with_limits` actually passes to
`subprocess.Popen` (compiler_service.py lines 110-120). -/
def popen_call_keywords : List String :=
  ["stdin", "stdout", "stderr", "cwd", "text", "timeout", "shell"]

/-- Python rejects a call with a keyword that is not a parameter of the
callee.  The first unexpected keyword of the `Popen` call, if any; here it
is `timeout`, so the call raises `TypeError` before a process is spawned. -/
def popen_unexpected_keyword : Option String :=
  popen_call_keywords.find? (fun k => !(popen_parameters.contains k))

/-- The host-OS aspects a `run_code` call interacts with. -/
structure SysEnv where
  /-- Name of the temporary directory `tempfile.TemporaryDirectory` creates. -/
  tempDir : String
  /-- `some msg` when creating the temporary directory / writing the source
  file raises an exception with message `msg`; `none` when setup succeeds. -/
  setupError : Option String
  /-- Message of the `TypeError` raised by the `Popen(…, timeout=…)` call
  (its exact wording varies with the Python version). -/
  typeErrorMsg : String
  /-- What `Popen`+`communicate` would return for a command, stdin text and
  working directory, had the call been legal. -/
  communicate : List String → Option String → String → CommOutcome
  /-- The measured `round(time.time() - start_time, 3)`, abstracted. -/
  elapsed : Int

/-- The dict returned by `CodeExecutor._execute_with_limits`. -/
structure ProcResult where
  success : Bool
  stdout : String
  stderr : String
  return_code : Int
  memory_usage : Int
deriving DecidableEq

/-- `CodeExecutor._execute_with_limits`. -/
def execute_with_limits (env : SysEnv) (command : List String) (stdin : Option String)
    (cwd : String) : ProcResult :=
  match popen_unexpected_keyword with
  | some _ =>
    { success := false, stdout := "",
      stderr := "Execution failed: " ++ env.typeErrorMsg, return_code := -1, memory_usage := 0 }
  | none =>
    match env.communicate command stdin cwd with
    | .completes out0 err0 rc =>
      let stdout := if max_output_size < out0.length
        then py_take out0 max_output_size ++ "\n[Output truncated - too large]" else out0
      let stderr := if max_output_size < err0.length
        then py_take err0 max_output_size ++ "\n[Error output truncated - too large]" else err0
      { success := rc == 0, stdout := stdout,
        stderr := if rc ≠ 0 then stderr else "", return_code := rc, memory_usage := 0 }
    | .timeoutExpired =>
      { success := false, stdout := "",
        stderr := "Execution timed out after " ++ toString max_execution_time ++ " seconds",
        return_code := -1, memory_usage := 0 }
    | .raises m =>
      { success := false, stdout := "", stderr := "Execution failed: " ++ m,
        return_code := -1, memory_usage := 0 }

/-- The dict returned by `CodeExecutor.run_code`.  The unsupported-language
branch returns a dict without the `language` key, modelled as `none`. -/
structure RunResult where
  success : Bool
  output : String
  error : String
  execution_time : Int
  memory_usage : Int
  language : Option String
deriving DecidableEq

/-- File-system effects of one call: directories created, files written
(with contents), and directory trees removed. -/
structure FsLog where
  dirs : List String
  files : List (String × String)
  removed_trees : List String
deriving DecidableEq

/-- Path `p` lies in the tree rooted at `dir`. -/
def path_in_dir (dir p : String) : Bool :=
  p == dir || chars_lead (dir ++ "/").data p.data

/-- Artifacts of a call that remain on disk after it returns. -/
def fs_residual (log : FsLog) : List String :=
  (log.dirs ++ log.files.map Prod.fst).filter
    (fun p => !(log.removed_trees.any (fun d => path_in_dir d p)))

/-- The message of the unsupported-language branch of `run_code`. -/
def unsupported_message (language : String) : String :=
  "Language \x27" ++ language ++ "\x27 is not supported. Supported languages: "
    ++ join_comma (supported_languages.map Prod.fst)

/-- `CodeExecutor.run_code`: normalizes the language, rejects unsupported
languages, otherwise materializes the source inside a fresh temporary
directory (removed again on every exit path by the `with
tempfile.TemporaryDirectory()` block) and runs `_execute_with_limits`;
any setup exception is converted to an "Execution error: …" dict. -/
def run_code (env : SysEnv) (language code : String) (stdin : Option String) :
    RunResult × FsLog :=
  let language := py_lower language
  if (supported_languages.lookup language).isNone then
    ({ success := false, output := "", error := unsupported_message language,
       execution_time := 0, memory_usage := 0, language := none }, ⟨[], [], []⟩)
  else
    match env.setupError with
    | some e =>
      ({ success := false, output := "", error := "Execution error: " ++ e,
         execution_time := env.elapsed, memory_usage := 0, language := some language },
       ⟨[], [], []⟩)
    | none =>
      let lang_config := (supported_languages.lookup language).getD ⟨"", []⟩
      let temp_file := env.tempDir ++ "/" ++ ("code" ++ lang_config.extension)
      let command := prepare_command language temp_file env.tempDir
      let result := execute_with_limits env command stdin env.tempDir
      ({ success := result.success, output := result.stdout, error := result.stderr,
         execution_time := env.elapsed, memory_usage := result.memory_usage,
         language := some language },
       ⟨[env.tempDir], [(temp_file, code)], [env.tempDir]⟩)

/-- The result dict of `CodeExecutor.validate_code`. -/
structure ValidationResult where
  valid : Bool
  error : Option String
deriving DecidableEq

/-- `dangerous_patterns` of `CodeExecutor.validate_code` (in order). -/
def dangerous_patterns : List String :=
  ["import os", "import subprocess", "import sys",
   "exec(", "eval(", "__import__",
   "open(", "file(", "input(",
   "raw_input(", "System.", "Runtime.",
   "fs.", "require(\"fs\")", "require(\"child_process\")",
   "process.exit", "System.exit"]

/-- `CodeExecutor.validate_code`. -/
def validate_code (language code : String) : ValidationResult :=
  if py_strip code = "" then
    ⟨false, some "Code cannot be empty"⟩
  else
    match dangerous_patterns.find? (fun p => py_in (py_lower p) (py_lower code)) with
    | some p =>
      ⟨false, some ("Potentially dangerous code detected: " ++ p
        ++ ". Please remove it for security.")⟩
    | none => ⟨true, none⟩

theorem str_data_append (a b : String) : (a ++ b).data = a.data ++ b.data := rfl

theorem popen_unexpected_keyword_eq : popen_unexpected_keyword = some "timeout" := by decide

/-- Because `Popen` is called with the unexpected keyword `timeout`, every
`_execute_with_limits` call returns the converted `TypeError`, regardless
of command, stdin or working directory. -/
theorem execute_with_limits_typeerror (env : SysEnv) (command : List String)
    (stdin : Option String) (cwd : String) :
    execute_with_limits env command stdin cwd
      = { success := false, stdout := "",
          stderr := "Execution failed: " ++ env.typeErrorMsg,
          return_code := -1, memory_usage := 0 } := by
  simp [execute_with_limits, popen_unexpected_keyword_eq]

theorem path_in_dir_self (d : String) : path_in_dir d d = true := by
  simp [path_in_dir]

theorem path_in_dir_append (d rest : String) : path_in_dir d (d ++ "/" ++ rest) = true := by
  have h : (d ++ "/" ++ rest).data = (d ++ "/").data ++ rest.data := str_data_append _ _
  simp only [path_in_dir, h, Bool.or_eq_true]
  right
  exact chars_lead_append _ _

/-- C4.  For every language identifier whose normalized (lower-cased) form
is not a key of the supported-language table, `run_code` returns
success=false with the unsupported-language message and execution_time 0,
performs no file-system action, and its result does not depend on the
host environment at all — in particular no subprocess is spawned. -/
theorem unsupported_language_no_process
    (env1 env2 : SysEnv) (language code : String) (stdin : Option String)
    (h : supported_languages.lookup (py_lower language) = none) :
    run_code env1 language code stdin = run_code env2 language code stdin
    ∧ run_code env1 language code stdin
      = ({ success := false, output := "", error := unsupported_message (py_lower language),
           execution_time := 0, memory_usage := 0, language := none }, ⟨[], [], []⟩) := by
  constructor <;> simp [run_code, h]

def env_posix_a : SysEnv :=
  { tempDir := "/tmp/tmpaaa", setupError := none,
    typeErrorMsg := "Popen.__init__() got an unexpected keyword argument \x27timeout\x27",
    communicate := fun _ _ _ => .completes "" "" 0, elapsed := 0 }

def env_posix_b : SysEnv :=
  { tempDir := "/tmp/tmpbbb", setupError := none,
    typeErrorMsg := "__init__() got an unexpected keyword argument \x27timeout\x27",
    communicate := fun _ _ _ => .completes "different" "different" 1, elapsed := 7 }

/-- Witness for C4 at the concrete unsupported identifier `brainfuck`:
two arbitrary distinct environments give the same fixed result. -/
theorem unsupported_language_no_process_witness :
    supported_languages.lookup (py_lower "brainfuck") = none
    ∧ (run_code env_posix_a "brainfuck" "++" none = run_code env_posix_b "brainfuck" "++" none
      ∧ run_code env_posix_a "brainfuck" "++" none
        = ({ success := false, output := "", error := unsupported_message (py_lower "brainfuck"),
             execution_time := 0, memory_usage := 0, language := none }, ⟨[], [], []⟩)) :=
  ⟨by decide,
   unsupported_language_no_process env_posix_a env_posix_b "brainfuck" "++" none (by decide)⟩

/-- On a supported language with successful setup, `run_code` returns the
converted `Popen` `TypeError` failure (shared helper). -/
theorem run_code_converts_popen_typeerror (env : SysEnv) (language code : String)
    (stdin : Option String) (cfg : LangConfig)
    (hlk : supported_languages.lookup (py_lower language) = some cfg)
    (hn : env.setupError = none) :
    (run_code env language code stdin).1
      = { success := false, output := "",
          error := "Execution failed: " ++ env.typeErrorMsg,
          execution_time := env.elapsed, memory_usage := 0,
          language := some (py_lower language) } := by
  simp [run_code, hlk, hn, execute_with_limits_typeerror]

/-- C5.  `run_code` never lets an engine exception escape: if the
temp-dir/temp-file setup raises with message `m`, the call returns a
regular result with success=false and error `"Execution error: " ++ m`;
and if setup succeeds, the `TypeError` raised inside
`_execute_with_limits` by the `Popen(…, timeout=…)` call is likewise
caught there and converted, so the call again returns a regular
success=false result carrying the exception message. -/
theorem engine_exceptions_converted
    (env : SysEnv) (language code : String) (stdin : Option String)
    (hsup : (supported_languages.lookup (py_lower language)).isSome = true) :
    (∀ m, env.setupError = some m →
      (run_code env language code stdin).1
        = { success := false, output := "", error := "Execution error: " ++ m,
            execution_time := env.elapsed, memory_usage := 0,
            language := some (py_lower language) })
    ∧ (env.setupError = none →
      (run_code env language code stdin).1
        = { success := false, output := "",
            error := "Execution failed: " ++ env.typeErrorMsg,
            execution_time := env.elapsed, memory_usage := 0,
            language := some (py_lower language) }) := by
  cases hlk : supported_languages.lookup (py_lower language) with
  | none => rw [hlk] at hsup; simp at hsup
  | some cfg =>
    constructor
    · intro m hm
      simp [run_code, hlk, hm]
    · intro hn
      exact run_code_converts_popen_typeerror env language code stdin cfg hlk hn

def env_setup_boom : SysEnv :=
  { tempDir := "/tmp/tmpboom", setupError := some "[Errno 28] No space left on device",
    typeErrorMsg := "Popen.__init__() got an unexpected keyword argument \x27timeout\x27",
    communicate := fun _ _ _ => .completes "" "" 0, elapsed := 3 }

/-- Witness for C5: a concrete environment whose temp-file setup raises. -/
theorem engine_exceptions_converted_witness :
    (supported_languages.lookup (py_lower "python")).isSome = true
    ∧ ((∀ m, env_setup_boom.setupError = some m →
        (run_code env_setup_boom "python" "print(1)" none).1
          = { success := false, output := "", error := "Execution error: " ++ m,
              execution_time := env_setup_boom.elapsed, memory_usage := 0,
              language := some (py_lower "python") })
      ∧ (env_setup_boom.setupError = none →
        (run_code env_setup_boom "python" "print(1)" none).1
          = { success := false, output := "",
              error := "Execution failed: " ++ env_setup_boom.typeErrorMsg,
              execution_time := env_setup_boom.elapsed, memory_usage := 0,
              language := some (py_lower "python") })) :=
  ⟨by decide, engine_exceptions_converted env_setup_boom "python" "print(1)" none (by decide)⟩

/-- C6 (amended).  `CodeExecutor.run_code` leaves no residual artifacts on
any exit path: the unsupported-language and setup-failure paths touch no
files, and on the normal path everything created (the temporary directory
and the source file inside it) lies in the tree that the
`with tempfile.TemporaryDirectory()` block removes.  (The separate
`/execute` endpoint of `api/code.py` does NOT share this property; see the
counterexample about `api_execute_code`.) -/
theorem run_code_no_residual_artifacts
    (env : SysEnv) (language code : String) (stdin : Option String) :
    fs_residual (run_code env language code stdin).2 = [] := by
  cases hlk : supported_languages.lookup (py_lower language) with
  | none => simp [run_code, hlk, fs_residual]
  | some cfg =>
    cases hset : env.setupError with
    | some e => simp [run_code, hlk, hset, fs_residual]
    | none =>
      simp [run_code, hlk, hset, fs_residual, path_in_dir_self, path_in_dir_append]

/-- C9.  `validate_code` rejects empty or whitespace-only source with the
fixed empty-code message (before any dangerous-pattern check runs). -/
theorem empty_code_rejected (language code : String) (h : py_strip code = "") :
    validate_code language code = ⟨false, some "Code cannot be empty"⟩ := by
  simp [validate_code, h]

/-- Witness for C9 at a concrete whitespace-only source. -/
theorem empty_code_rejected_witness :
    py_strip "  \n\t " = ""
    ∧ validate_code "python" "  \n\t " = ⟨false, some "Code cannot be empty"⟩ :=
  ⟨by decide, empty_code_rejected "python" "  \n\t " (by decide)⟩

/-- C1 (failing run).  The scenario `run_code("python", "print('hi')")` in
an environment whose `python` process would print `hi` and exit 0:
because `_execute_with_limits` passes `timeout=` to `subprocess.Popen`
(which has no such parameter), the call returns success=false with the
converted `TypeError` instead of the expected success=true / stdout "hi". -/
def c1_env : SysEnv :=
  { tempDir := "/tmp/tmpc1", setupError := none,
    typeErrorMsg := "Popen.__init__() got an unexpected keyword argument \x27timeout\x27",
    communicate := fun _ _ _ => .completes "hi\n" "" 0, elapsed := 0 }

/-- C1: evaluation of the embedded engine at the claimed scenario. -/
theorem python_hello_fails_with_typeerror :
    (run_code c1_env "python" "print(\x27hi\x27)" none).1
      = { success := false, output := "",
          error := "Execution failed: Popen.__init__() got an unexpected keyword argument \x27timeout\x27",
          execution_time := 0, memory_usage := 0, language := some "python" } := by
  decide

/-- Environment for the C7 scenario: the process would emit a stream one
character longer than the 1MB cap on both stdout and stderr. -/
def c7_big_output : String := ⟨List.replicate (1024 * 1024 + 1) 'a'⟩

def c7_env : SysEnv :=
  { tempDir := "/tmp/tmpc7", setupError := none,
    typeErrorMsg := "Popen.__init__() got an unexpected keyword argument \x27timeout\x27",
    communicate := fun _ _ _ => .completes c7_big_output c7_big_output 0, elapsed := 0 }

/-- C7: the output-size cap of `_execute_with_limits` (lines 125-130) is
dead code — the `Popen(…, timeout=…)` `TypeError` is raised first, so even
when the process would emit far more than the cap, the result carries an
empty stdout and the converted `TypeError`, never a truncated stream with
the marker. -/
theorem output_cap_never_applied :
    max_output_size < c7_big_output.length
    ∧ (run_code c7_env "python" "print(\x27a\x27 * 2000000)" none).1
      = { success := false, output := "",
          error := "Execution failed: Popen.__init__() got an unexpected keyword argument \x27timeout\x27",
          execution_time := 0, memory_usage := 0, language := some "python" } := by
  constructor
  · have h1 : c7_big_output.length = (List.replicate (1024 * 1024 + 1) 'a').length := rfl
    rw [h1, List.length_replicate]
    norm_num [max_output_size]
  · exact run_code_converts_popen_typeerror c7_env "python" "print(\x27a\x27 * 2000000)" none
      ⟨".py", ["python"]⟩ (by decide) rfl

def c10_env : SysEnv :=
  { tempDir := "/tmp/tmpc10", setupError := none,
    typeErrorMsg := "Popen.__init__() got an unexpected keyword argument \x27timeout\x27",
    communicate := fun _ _ _ => .completes "ok\n" "warning: noise\n" 0, elapsed := 0 }

/-- C10: the return-code-zero stderr gating of `_execute_with_limits`
(lines 132-138) is dead code — no child process ever terminates, because
`Popen(…, timeout=…)` raises `TypeError` first.  In an environment whose
process would exit 0 after writing to stderr, the result is the converted
`TypeError` failure, not a success with an empty error field. -/
theorem stderr_gating_never_applied :
    (run_code c10_env "python" "import sys\nsys.stderr.write(\x27warning: noise\\n\x27)\nprint(\x27ok\x27)" none).1
      = { success := false, output := "",
          error := "Execution failed: Popen.__init__() got an unexpected keyword argument \x27timeout\x27",
          execution_time := 0, memory_usage := 0, language := some "python" } := by
  decide

/-! ## `/execute` endpoint (`api/code.py`, `execute_code`)

This endpoint has its own language table and its own subprocess handling
(using `subprocess.run`, which does accept `timeout=`).  For the compiled
languages it runs a real compile step and short-circuits on a nonzero
compiler return code.  Its temporary source file is created with
`tempfile.NamedTemporaryFile(delete=False)` and is never removed.

The host OS is abstracted into `ApiEnv`: the temp-file name
`NamedTemporaryFile` picks, the `uuid4().hex[:8]` fragment, what each
`subprocess.run` invocation returns, and the wall-clock / psutil readings
(the response's `execution_time`, `memory_usage` and `cpu_usage` are
differences of two environment readings; they are abstracted as single
environment values, which no claim depends on).
-/

/-- The `LanguageInfo` pydantic model of `api/code.py`. -/
structure LanguageInfo where
  name : String
  extension : String
  command : String
  args : List String
deriving DecidableEq

/-- The `languages` table of `execute_code` (insertion order). -/
def api_languages : List (String × LanguageInfo) :=
  [("python", ⟨"Python", ".py", "python", []⟩),
   ("javascript", ⟨"JavaScript", ".js", "node", []⟩),
   ("typescript", ⟨"TypeScript", ".ts", "ts-node", []⟩),
   ("java", ⟨"Java", ".java", "java", []⟩),
   ("cpp", ⟨"C++", ".cpp", "g++", ["-o", "program", "-std=c++17"]⟩),
   ("c", ⟨"C", ".c", "gcc", ["-o", "program", "-std=c99"]⟩),
   ("go", ⟨"Go", ".go", "go", ["run"]⟩),
   ("rust", ⟨"Rust", ".rs", "rustc", ["-o", "program"]⟩),
   ("php", ⟨"PHP", ".php", "php", []⟩),
   ("ruby", ⟨"Ruby", ".rb", "ruby", []⟩),
   ("csharp", ⟨"C#", ".cs", "dotnet", ["run"]⟩),
   ("swift", ⟨"Swift", ".swift", "swift", []⟩)]

/-- The language alternatives of the markdown-block regex
`(?:python|javascript|java|cpp|c|go|rust|php|ruby|csharp|typescript|swift)?`,
in alternation order. -/
def md_lang_alternatives : List String :=
  ["python", "javascript", "java", "cpp", "c", "go", "rust", "php", "ruby",
   "csharp", "typescript", "swift"]

/-- The three-backtick fence. -/
def tick3 : List Char := "```".data

/-- The lazy `(.*?)```` tail of the block regex (DOTALL): the shortest
body after which a closing fence follows; returns the body and the text
after the closing fence. -/
def find_block_close : List Char → Option (List Char × List Char)
  | [] => none
  | c :: cs =>
    match drop_lead tick3 (c :: cs) with
    | some rest => some ([], rest)
    | none =>
      match find_block_close cs with
      | some g => some (c :: g.1, g.2)
      | none => none

/-- Try one alternative of the optional language group: the alternative,
then a newline, then the lazy body up to a closing fence. -/
def try_md_alt (alt : List Char) (cs : List Char) : Option (List Char) :=
  match drop_lead alt cs with
  | none => none
  | some r1 =>
    match r1 with
    | '\n' :: r2 =>
      match find_block_close r2 with
      | some g => some g.1
      | none => none
    | _ => none

/-- Backtracking over the alternation (the empty alternative last, since
the group is optional). -/
def try_md_alts : List (List Char) → List Char → Option (List Char)
  | [], cs => try_md_alt [] cs
  | a :: as, cs =>
    match try_md_alt a cs with
    | some g => some g
    | none => try_md_alts as cs

/-- `re.findall(r'```(?:…)?\n(.*?)```', code, re.DOTALL)` restricted to the
first match (the code only uses `code_blocks[0]` and emptiness), scanning
match positions left to right. -/
def find_first_md_block : List Char → Option (List Char)
  | [] => none
  | c :: cs =>
    match drop_lead tick3 (c :: cs) with
    | some after3 =>
      match try_md_alts (md_lang_alternatives.map String.data) after3 with
      | some g => some g
      | none => find_first_md_block cs
    | none => find_first_md_block cs

/-- Consume the lazy `.*?\n` continuation (no DOTALL: everything up to and
including the first newline). -/
def drop_line_rest : List Char → Option (List Char)
  | [] => none
  | c :: r => if c = '\n' then some r else drop_line_rest r

/-- `re.sub(r'```.*?\n', '', code)`: delete every fence-to-end-of-line
match, scanning left to right (fuel-structured like `replace_chars_fuel`;
every step consumes at least one character). -/
def sub_tick_line_fuel : Nat → List Char → List Char
  | _, [] => []
  | 0, l => l
  | fuel + 1, c :: cs =>
    match drop_lead tick3 (c :: cs) with
    | some after3 =>
      match drop_line_rest after3 with
      | some rest => sub_tick_line_fuel fuel rest
      | none => c :: sub_tick_line_fuel fuel cs
    | none => c :: sub_tick_line_fuel fuel cs

def sub_tick_line (l : List Char) : List Char := sub_tick_line_fuel l.length l

/-- `re.sub(r'```', '', code)`: delete every remaining fence. -/
def sub_ticks_fuel : Nat → List Char → List Char
  | _, [] => []
  | 0, l => l
  | fuel + 1, c :: cs =>
    match drop_lead tick3 (c :: cs) with
    | some after3 => sub_ticks_fuel fuel after3
    | none => c :: sub_ticks_fuel fuel cs

def sub_ticks (l : List Char) : List Char := sub_ticks_fuel l.length l

/-- The markdown-stripping preamble of `execute_code` (lines 170-179). -/
def clean_code (code : String) : String :=
  if py_in "```" code then
    match find_first_md_block code.data with
    | some g => py_strip ⟨g⟩
    | none => ⟨sub_ticks (sub_tick_line code.data)⟩
  else code

/-- The `CodeExecutionRequest` pydantic model (defaults from the source). -/
structure CodeExecutionRequest where
  code : String
  language : String
  input_data : Option String := none
  timeout : Int := 30
  memory_limit : Int := 100
deriving DecidableEq

/-- The `CodeExecutionResponse` pydantic model. -/
structure CodeExecutionResponse where
  output : String
  error : Option String
  execution_time : Int
  memory_usage : Int
  cpu_usage : Int
  exit_code : Int
deriving DecidableEq

/-- A FastAPI/starlette `HTTPException` (status code and detail). -/
structure HttpErr where
  status : Nat
  detail : String
deriving DecidableEq

/-- starlette's `HTTPException.__str__`: `f"{status_code}: {detail}"`. -/
def http_exn_str (status : Nat) (detail : String) : String :=
  toString status ++ ": " ++ detail

/-- Host-OS interactions of one `execute_code` call. -/
structure ApiEnv where
  /-- The name `NamedTemporaryFile(suffix=…, delete=False, dir=gettempdir())`
  chooses. -/
  tempFileName : String
  /-- `uuid.uuid4().hex[:8]` for the C# project directory. -/
  uuidHex8 : String
  /-- What each `subprocess.run(argv, input, cwd, …)` invocation returns. -/
  run : List String → Option String → Option String → CommOutcome
  /-- `time.time() - start_time` at response construction, abstracted. -/
  elapsed : Int
  /-- `psutil.virtual_memory().percent - initial_memory`, abstracted. -/
  memDelta : Int
  /-- `psutil.cpu_percent() - initial_cpu`, abstracted. -/
  cpuDelta : Int

/-- Result of one endpoint call: the HTTP response (or raised
`HTTPException`), the `subprocess.run` invocations in order, and the
file-system effects. -/
structure ApiCallResult where
  response : Except HttpErr CodeExecutionResponse
  procs : List (List String)
  fs : FsLog

/-- The `Program.csproj` contents written for C# requests. -/
def csproj_content : String :=
  "<Project Sdk=\"Microsoft.NET.Sdk\">\n  <PropertyGroup>\n    <OutputType>Exe</OutputType>\n    <TargetFramework>net6.0</TargetFramework>\n  </PropertyGroup>\n</Project>"

/-- `os.path.basename(temp_file_path).replace('.java', '')`. -/
def java_class_name (tf : String) : String := py_replace (path_basename tf) ".java" ""

/-- The `except subprocess.TimeoutExpired` response (lines 316-324). -/
def api_timeout_response (env : ApiEnv) (timeout : Int) : CodeExecutionResponse :=
  { output := "", error := some ("Execution timeout after " ++ toString timeout ++ " seconds"),
    execution_time := env.elapsed, memory_usage := env.memDelta,
    cpu_usage := env.cpuDelta, exit_code := -1 }

/-- The inner `except Exception` response (lines 325-333). -/
def api_error_response (env : ApiEnv) (m : String) : CodeExecutionResponse :=
  { output := "", error := some ("Execution error: " ++ m),
    execution_time := env.elapsed, memory_usage := env.memDelta,
    cpu_usage := env.cpuDelta, exit_code := -1 }

/-- The early compile-error return (lines 201-209 / 235-243). -/
def api_compile_error_response (env : ApiEnv) (stderr : String) (rc : Int) : CodeExecutionResponse :=
  { output := "", error := some ("Compilation error:\n" ++ stderr),
    execution_time := env.elapsed, memory_usage := env.memDelta,
    cpu_usage := env.cpuDelta, exit_code := rc }

/-- The final response of the normal path (lines 303-314). -/
def api_final_response (env : ApiEnv) (output : String) (error : Option String)
    (rc : Int) : CodeExecutionResponse :=
  { output := output, error := error, execution_time := env.elapsed,
    memory_usage := env.memDelta, cpu_usage := env.cpuDelta, exit_code := rc }

/-- `execute_code` of `api/code.py`.  File-system writes are modelled as
succeeding; no branch of the function removes any file it created
(`delete=False`, and there is no cleanup handler). -/
def api_execute_code (env : ApiEnv) (req : CodeExecutionRequest) : ApiCallResult :=
  match api_languages.lookup req.language with
  | none =>
    -- `raise HTTPException(400, …)` (line 164) is caught by the outer
    -- `except Exception` (line 335) and re-raised as a 500.
    { response := .error ⟨500, "Code execution error: "
        ++ http_exn_str 400 ("Unsupported language: " ++ req.language)⟩,
      procs := [], fs := ⟨[], [], []⟩ }
  | some lang_info =>
    let cleant := clean_code req.code
    let tf := env.tempFileName
    if req.language = "cpp" ∨ req.language = "c" ∨ req.language = "rust" then
      let cargv := lang_info.command :: (lang_info.args ++ [tf])
      match env.run cargv none none with
      | .timeoutExpired =>
        { response := .ok (api_timeout_response env req.timeout), procs := [cargv],
          fs := ⟨[], [(tf, cleant)], []⟩ }
      | .raises m =>
        { response := .ok (api_error_response env m), procs := [cargv],
          fs := ⟨[], [(tf, cleant)], []⟩ }
      | .completes _ cerr crc =>
        if crc ≠ 0 then
          { response := .ok (api_compile_error_response env cerr crc), procs := [cargv],
            fs := ⟨[], [(tf, cleant)], []⟩ }
        else
          match env.run ["./program"] req.input_data none with
          | .timeoutExpired =>
            { response := .ok (api_timeout_response env req.timeout),
              procs := [cargv, ["./program"]], fs := ⟨[], [(tf, cleant)], []⟩ }
          | .raises m =>
            { response := .ok (api_error_response env m),
              procs := [cargv, ["./program"]], fs := ⟨[], [(tf, cleant)], []⟩ }
          | .completes out err rc =>
            { response := .ok (api_final_response env out
                (if rc ≠ 0 then some err else none) rc),
              procs := [cargv, ["./program"]], fs := ⟨[], [(tf, cleant)], []⟩ }
    else if req.language = "java" then
      let cargv := ["javac", tf]
      match env.run cargv none none with
      | .timeoutExpired =>
        { response := .ok (api_timeout_response env req.timeout), procs := [cargv],
          fs := ⟨[], [(tf, cleant)], []⟩ }
      | .raises m =>
        { response := .ok (api_error_response env m), procs := [cargv],
          fs := ⟨[], [(tf, cleant)], []⟩ }
      | .completes _ cerr crc =>
        if crc ≠ 0 then
          { response := .ok (api_compile_error_response env cerr crc), procs := [cargv],
            fs := ⟨[], [(tf, cleant)], []⟩ }
        else
          match env.run ["java", "-cp", "/tmp", java_class_name tf] req.input_data none with
          | .timeoutExpired =>
            { response := .ok (api_timeout_response env req.timeout),
              procs := [cargv, ["java", "-cp", "/tmp", java_class_name tf]],
              fs := ⟨[], [(tf, cleant)], []⟩ }
          | .raises m =>
            { response := .ok (api_error_response env m),
              procs := [cargv, ["java", "-cp", "/tmp", java_class_name tf]],
              fs := ⟨[], [(tf, cleant)], []⟩ }
          | .completes out err rc =>
            { response := .ok (api_final_response env out
                (if rc ≠ 0 then some err else none) rc),
              procs := [cargv, ["java", "-cp", "/tmp", java_class_name tf]],
              fs := ⟨[], [(tf, cleant)], []⟩ }
    else if req.language = "csharp" then
      let project_dir := "/tmp/csharp_project_" ++ env.uuidHex8
      let pfs := [(tf, cleant),
        (project_dir ++ "/" ++ "Program.csproj", csproj_content),
        (project_dir ++ "/" ++ "Program.cs", cleant)]
      match env.run ["dotnet", "run"] req.input_data (some project_dir) with
      | .timeoutExpired =>
        { response := .ok (api_timeout_response env req.timeout),
          procs := [["dotnet", "run"]], fs := ⟨[project_dir], pfs, []⟩ }
      | .raises m =>
        { response := .ok (api_error_response env m),
          procs := [["dotnet", "run"]], fs := ⟨[project_dir], pfs, []⟩ }
      | .completes out err rc =>
        { response := .ok (api_final_response env out
            (if rc ≠ 0 then some err else none) rc),
          procs := [["dotnet", "run"]], fs := ⟨[project_dir], pfs, []⟩ }
    else
      let argv := lang_info.command :: (lang_info.args ++ [tf])
      match env.run argv req.input_data none with
      | .timeoutExpired =>
        { response := .ok (api_timeout_response env req.timeout), procs := [argv],
          fs := ⟨[], [(tf, cleant)], []⟩ }
      | .raises m =>
        { response := .ok (api_error_response env m), procs := [argv],
          fs := ⟨[], [(tf, cleant)], []⟩ }
      | .completes out err rc =>
        { response := .ok (api_final_response env out
            (if rc ≠ 0 then some err else none) rc),
          procs := [argv], fs := ⟨[], [(tf, cleant)], []⟩ }

/-- The compile invocation `execute_code` issues for a compiled-language
request: `[info.command] + info.args + [temp_file_path]` for cpp/c/rust,
`["javac", temp_file_path]` for java. -/
def api_compile_argv (env : ApiEnv) (req : CodeExecutionRequest) : List String :=
  if req.language = "java" then ["javac", env.tempFileName]
  else
    let info := (api_languages.lookup req.language).getD ⟨"", "", "", []⟩
    info.command :: (info.args ++ [env.tempFileName])

/-- C3.  For every request in a compiled language (cpp, c, rust, java)
whose compile invocation completes with a nonzero return code,
`execute_code` returns the compile-error response (empty output, error
`"Compilation error:\n" ++ stderr`, exit_code the compiler's return code)
and issues exactly one subprocess invocation — the compiler; the run step
is never executed. -/
theorem compile_failure_short_circuits
    (env : ApiEnv) (req : CodeExecutionRequest) (co ce : String) (crc : Int)
    (hlang : req.language = "cpp" ∨ req.language = "c" ∨ req.language = "rust"
      ∨ req.language = "java")
    (hrun : env.run (api_compile_argv env req) none none = .completes co ce crc)
    (hcrc : crc ≠ 0) :
    api_execute_code env req
      = { response := .ok (api_compile_error_response env ce crc),
          procs := [api_compile_argv env req],
          fs := ⟨[], [(env.tempFileName, clean_code req.code)], []⟩ } := by
  obtain ⟨code, language, input_data, timeout, memory_limit⟩ := req
  simp only at hlang hrun ⊢
  rcases hlang with h | h | h | h <;> subst h
  · have hlk : api_languages.lookup "cpp"
        = some ⟨"C++", ".cpp", "g++", ["-o", "program", "-std=c++17"]⟩ := rfl
    have hargv : api_compile_argv env ⟨code, "cpp", input_data, timeout, memory_limit⟩
        = ["g++", "-o", "program", "-std=c++17", env.tempFileName] := by
      simp [api_compile_argv, hlk]
    rw [hargv] at hrun
    simp [api_execute_code, hlk, hargv, hrun, hcrc]
  · have hlk : api_languages.lookup "c"
        = some ⟨"C", ".c", "gcc", ["-o", "program", "-std=c99"]⟩ := rfl
    have hargv : api_compile_argv env ⟨code, "c", input_data, timeout, memory_limit⟩
        = ["gcc", "-o", "program", "-std=c99", env.tempFileName] := by
      simp [api_compile_argv, hlk]
    rw [hargv] at hrun
    simp [api_execute_code, hlk, hargv, hrun, hcrc]
  · have hlk : api_languages.lookup "rust"
        = some ⟨"Rust", ".rs", "rustc", ["-o", "program"]⟩ := rfl
    have hargv : api_compile_argv env ⟨code, "rust", input_data, timeout, memory_limit⟩
        = ["rustc", "-o", "program", env.tempFileName] := by
      simp [api_compile_argv, hlk]
    rw [hargv] at hrun
    simp [api_execute_code, hlk, hargv, hrun, hcrc]
  · have hlk : api_languages.lookup "java"
        = some ⟨"Java", ".java", "java", []⟩ := rfl
    have hargv : api_compile_argv env ⟨code, "java", input_data, timeout, memory_limit⟩
        = ["javac", env.tempFileName] := by
      simp [api_compile_argv]
    rw [hargv] at hrun
    simp [api_execute_code, hlk, hargv, hrun, hcrc]

def c3_env : ApiEnv :=
  { tempFileName := "/tmp/tmpabc.cpp", uuidHex8 := "cafebabe",
    run := fun argv _ _ =>
      if argv = ["g++", "-o", "program", "-std=c++17", "/tmp/tmpabc.cpp"]
      then .completes "" "error: expected declaration" 1
      else .completes "" "" 0,
    elapsed := 0, memDelta := 0, cpuDelta := 0 }

def c3_req : CodeExecutionRequest := { code := "int main(", language := "cpp" }

/-- Witness for C3: a concrete C++ request whose compile step fails with
return code 1 and stderr `error: expected declaration`. -/
theorem compile_failure_short_circuits_witness :
    (c3_req.language = "cpp" ∨ c3_req.language = "c" ∨ c3_req.language = "rust"
      ∨ c3_req.language = "java")
    ∧ c3_env.run (api_compile_argv c3_env c3_req) none none
        = .completes "" "error: expected declaration" 1
    ∧ (1 : Int) ≠ 0
    ∧ api_execute_code c3_env c3_req
      = { response := .ok (api_compile_error_response c3_env "error: expected declaration" 1),
          procs := [api_compile_argv c3_env c3_req],
          fs := ⟨[], [(c3_env.tempFileName, clean_code c3_req.code)], []⟩ } :=
  ⟨by decide, by decide, by decide,
   compile_failure_short_circuits c3_env c3_req "" "error: expected declaration" 1
     (by decide) (by decide) (by decide)⟩

def c6_env : ApiEnv :=
  { tempFileName := "/tmp/tmpq1w2e3.py", uuidHex8 := "deadbeef",
    run := fun _ _ _ => .completes "1\n" "" 0,
    elapsed := 0, memDelta := 0, cpuDelta := 0 }

def c6_req : CodeExecutionRequest := { code := "print(1)", language := "python" }

/-- C6 counterexample: a successful `/execute` call (python, `print(1)`,
process exits 0) leaves its temporary source file on disk — the endpoint
creates it with `NamedTemporaryFile(delete=False)` and never removes it,
so "no residual temporary artifacts remain" is false for `execute_code`
of `api/code.py`. -/
theorem api_execute_leaves_temp_file :
    fs_residual (api_execute_code c6_env c6_req).fs = ["/tmp/tmpq1w2e3.py"]
    ∧ fs_residual (api_execute_code c6_env c6_req).fs ≠ [] := by
  constructor <;> decide
